import Mathlib

/-
Verification of the matemol SDF/molfile loader (src/main.rs).

The Rust source is shallowly embedded here:
- the file contents are taken as the list of its lines (the output of
  std str lines, which the loader iterates over);
- Rust f64 values appearing in the file are decimal tokens; they are
  modelled as exact rationals parsed from the token (sign, integer part,
  optional fractional part; exponent/inf/nan forms of the Rust float
  grammar are not modelled since no property here depends on them);
- a Rust panic (unwrap on None/Err, unimplemented!, index out of bounds,
  debug-profile integer overflow) aborts the process; it is modelled as
  Option.none.  Input.load in the source returns Self, not Result, so
  none is the only failure outcome it has.
-/

/-- Test for Rust char::is_ascii_whitespace: space, tab, newline,
form feed, carriage return (used by str::split_ascii_whitespace). -/
def isAsciiWs (c : Char) : Bool :=
  c = ' ' || c = '\t' || c = '\n' || c = '\x0c' || c = '\r'

/-- Accumulator-style tokenizer: model of Rust str::split_ascii_whitespace,
which yields the maximal nonempty runs of non-whitespace characters. -/
def splitWsAux : List Char → List Char → List String
  | [], cur => if cur.isEmpty then [] else [⟨cur.reverse⟩]
  | c :: cs, cur =>
    if isAsciiWs c then
      if cur.isEmpty then splitWsAux cs []
      else ⟨cur.reverse⟩ :: splitWsAux cs []
    else splitWsAux cs (c :: cur)

/-- Model of Rust str::split_ascii_whitespace collected into a vector. -/
def splitAsciiWhitespace (s : String) : List String :=
  splitWsAux s.toList []

/-- Model of Rust str::trim: drop leading and trailing whitespace. -/
def trimWs (s : String) : String :=
  ⟨((s.toList.dropWhile fun c => c.isWhitespace).reverse.dropWhile
      fun c => c.isWhitespace).reverse⟩

/-- Value of a list of decimal digit characters. -/
def digitsToNat (ds : List Char) : Nat :=
  ds.foldl (fun acc c => 10 * acc + (c.toNat - '0'.toNat)) 0

/-- Model of Rust str::parse::<usize>: an optional plus sign followed by a
nonempty run of ASCII digits; anything else is a parse error. -/
def parseNat (s : String) : Option Nat :=
  let cs : List Char :=
    match s.toList with
    | '+' :: rest => rest
    | cs => cs
  if cs.isEmpty || !cs.all Char.isDigit then none
  else some (digitsToNat cs)

/-- Model of Rust str::parse::<f64> on the decimal fragment of the float
grammar: optional sign, then digits with an optional point, at least one
digit overall.  The value is the exact rational the token denotes. -/
def parseF64 (s : String) : Option ℚ :=
  let sd : Int × List Char :=
    match s.toList with
    | '-' :: rest => (-1, rest)
    | '+' :: rest => (1, rest)
    | cs => (1, cs)
  let ip := sd.2.takeWhile fun c => c ≠ '.'
  match sd.2.dropWhile fun c => c ≠ '.' with
  | [] =>
    if ip.isEmpty || !ip.all Char.isDigit then none
    else some (mkRat (sd.1 * digitsToNat ip) 1)
  | _dot :: fp =>
    if (ip.isEmpty && fp.isEmpty) || !ip.all Char.isDigit
        || !fp.all Char.isDigit then none
    else some (mkRat (sd.1 * (digitsToNat ip * 10 ^ fp.length + digitsToNat fp))
        (10 ^ fp.length))

/-- Model of Rust f64::round composed with the cast to isize: round to the
nearest integer, ties away from zero, i.e. sign q * floor (abs q + 1/2).
The floor is computed on the numerator and denominator directly: for the
nonnegative rational (2 * abs num + den) / (2 * den) truncating Nat
division is floor division. -/
def f64Round (q : ℚ) : ℤ :=
  let mag : ℤ := ((2 * q.num.natAbs + q.den) / (2 * q.den) : Nat)
  if q.num < 0 then -mag else mag

/-- Atom record, from struct Atom in src/main.rs (lines 3-29).  Fields not
set by the loader keep the Rust Default value (zero, false, empty). -/
structure Atom where
  element : String := ""
  atype : String := ""
  x : ℚ := 0
  y : ℚ := 0
  z : ℚ := 0
  formal_charge : ℤ := 0
  real_charge : ℚ := 0
  hexp : Nat := 0
  htot : Nat := 0
  neighbor_count : Nat := 0
  ring_count : Nat := 0
  arom : Bool := false
  q_arom : Bool := false
  stereo_care : Bool := false
  heavy : Bool := false
  metal : Bool := false
  nvalences : Nat := 0
  tag : Bool := false
  nucleon_number : Nat := 0
  radical_type : Nat := 0
deriving DecidableEq

/-- Bond record, from struct Bond in src/main.rs (lines 31-43).  Rust
Default for char is the NUL character. -/
structure Bond where
  a1 : Nat := 0
  a2 : Nat := 0
  btype : Char := '\x00'
  ring_count : Nat := 0
  arom : Bool := false
  q_arom : Bool := false
  topo : Nat := 0
  stereo : Nat := 0
  mdl_stereo : Nat := 0
deriving DecidableEq

/-- Parse result, from struct Input in src/main.rs (lines 45-57). -/
structure Input where
  mol_name : String
  mol_comment : String
  n_c_tot : Nat
  n_o_tot : Nat
  n_n_tot : Nat
  n_heavy : Nat
  heavy_bonds : Nat
  atoms : List Atom
  bonds : List Bond
deriving DecidableEq

/-- Valence table, from fn get_valence in src/main.rs (lines 162-195).
The catch-all arm of the Rust match is unimplemented!, a panic; it is
modelled as none. -/
def get_valence (elem_str : String) : Option Nat :=
  match elem_str with
  | "H" => some 1
  | "D" => some 1
  | "C" => some 4
  | "N" => some 3
  | "O" => some 2
  | "S" => some 2
  | "SE" => some 2
  | "TE" => some 2
  | "P" => some 3
  | "F" => some 1
  | "CL" => some 1
  | "BR" => some 1
  | "I" => some 1
  | "B" => some 3
  | "LI" => some 1
  | "NA" => some 1
  | "K" => some 1
  | "CA" => some 2
  | "SR" => some 2
  | "MG" => some 2
  | "FE" => some 3
  | "MN" => some 2
  | "HG" => some 2
  | "SI" => some 4
  | "SN" => some 4
  | "ZN" => some 2
  | "CU" => some 2
  | "A" => some 4
  | "Q" => some 4
  | _ => none

/-- Heavy-atom test, from fn is_heavy_atom in src/main.rs (lines 197-199),
verbatim: the source compares with equality, so it returns true exactly on
the symbol H. -/
def is_heavy_atom (elem_str : String) : Bool :=
  elem_str == "H"

/-- Atom-type normalization, from fn convert_mdl_type in src/main.rs
(lines 201-227).  Total: unlisted symbols map to the dummy-atom code DU. -/
def convert_mdl_type (elem_str : String) : String :=
  match elem_str with
  | "H" => "H"
  | "C" => "C3"
  | "O" => "O2"
  | "N" => "N3"
  | "F" => "F"
  | "Cl" => "CL"
  | "Br" => "BR"
  | "I" => "I"
  | "Al" => "AL"
  | "ANY" => "A"
  | "Ca" => "CA"
  | "Du" => "DU"
  | "K" => "K"
  | "Li" => "LI"
  | "LP" => "LP"
  | "Na" => "NA"
  | "S" => "S3"
  | "Si" => "SI"
  | "P" => "P4"
  | "A" => "A"
  | "Q" => "Q"
  | _ => "DU"

/-- Bond-order code table, from the match on sp 2 inside Input::load,
src/main.rs lines 125-135.  The catch-all arm is unimplemented!, a panic,
modelled as none. -/
def bondTypeOfCode (code : String) : Option Char :=
  match code with
  | "1" => some 'S'
  | "2" => some 'D'
  | "3" => some 'T'
  | "4" => some 'A'
  | "5" => some 'l'
  | "6" => some 's'
  | "7" => some 'd'
  | "8" => some 'a'
  | "9" => some 'a'
  | _ => none

/-- Rust usize subtraction of one as performed on bond indices in
src/main.rs lines 120-121; in the debug profile subtracting from zero
panics with an overflow (modelled as none). -/
def usizeSub1 : Nat → Option Nat
  | 0 => none
  | n + 1 => some n

/-- Body of one iteration of the atom loop of Input::load (src/main.rs
lines 79-114): tokenize the line, read element (token 3), coordinates
(tokens 0-2) and charge (token 4), normalize the type, look up the
valence, and build the Atom with all remaining fields defaulted.  Index
expressions sp i in the source panic when the token is absent (none
here). -/
def parseAtomLine (line : String) : Option Atom :=
  let sp := splitAsciiWhitespace line
  match sp[3]? with
  | none => none
  | some elem_str =>
  let new_atom_type := convert_mdl_type elem_str
  match sp[0]? with
  | none => none
  | some xs =>
  match parseF64 xs with
  | none => none
  | some x =>
  match sp[1]? with
  | none => none
  | some ys =>
  match parseF64 ys with
  | none => none
  | some y =>
  match sp[2]? with
  | none => none
  | some zs =>
  match parseF64 zs with
  | none => none
  | some z =>
  match sp[4]? with
  | none => none
  | some cs =>
  match parseF64 cs with
  | none => none
  | some chg =>
  match get_valence elem_str with
  | none => none
  | some nvalences =>
    some { element := elem_str, atype := new_atom_type, x, y, z,
           formal_charge := f64Round chg, real_charge := chg, nvalences }

/-- Mutable state of the atom loop of Input::load: the four counters and
the atom vector (src/main.rs lines 73-77). -/
structure AtomState where
  n_c_tot : Nat
  n_o_tot : Nat
  n_n_tot : Nat
  n_heavy : Nat
  atoms : List Atom
deriving DecidableEq

/-- Atom loop of Input::load (src/main.rs lines 78-115): runs exactly
n_atoms times, each time consuming the next line (unwrap panics when the
lines run out), parsing an atom and updating the counters.  The counters
compare the same element token the atom stores in its element field. -/
def loadAtomBlock : Nat → List String → AtomState → Option (AtomState × List String)
  | 0, lines, st => some (st, lines)
  | n + 1, lines, st =>
    match lines with
    | [] => none
    | line :: restLines =>
    match parseAtomLine line with
    | none => none
    | some atom =>
      loadAtomBlock n restLines
        { n_c_tot := st.n_c_tot + (if atom.element = "C" then 1 else 0)
          n_o_tot := st.n_o_tot + (if atom.element = "O" then 1 else 0)
          n_n_tot := st.n_n_tot + (if atom.element = "N" then 1 else 0)
          n_heavy := st.n_heavy + (if is_heavy_atom atom.element then 1 else 0)
          atoms := st.atoms ++ [atom] }

/-- Body of one iteration of the bond loop of Input::load (src/main.rs
lines 118-139): tokenize, parse the two 1-based indices, subtract one from
each, map the bond-order code, default the remaining fields. -/
def parseBondLine (line : String) : Option Bond :=
  let sp := splitAsciiWhitespace line
  match sp[0]? with
  | none => none
  | some t0 =>
  match parseNat t0 with
  | none => none
  | some r1 =>
  match usizeSub1 r1 with
  | none => none
  | some a1 =>
  match sp[1]? with
  | none => none
  | some t1 =>
  match parseNat t1 with
  | none => none
  | some r2 =>
  match usizeSub1 r2 with
  | none => none
  | some a2 =>
  match sp[2]? with
  | none => none
  | some t2 =>
  match bondTypeOfCode t2 with
  | none => none
  | some btype => some { a1, a2, btype }

/-- Bond loop of Input::load (src/main.rs lines 117-140) over the lines
handed to it: each line is parsed into a Bond and pushed in order; the
first failing line is a panic (none) that aborts the whole load. -/
def loadBondBlock : List String → Option (List Bond)
  | [] => some []
  | line :: restLines =>
    match parseBondLine line, loadBondBlock restLines with
    | some bond, some bonds => some (bond :: bonds)
    | _, _ => none

/-- Heavy-bond pass of Input::load (src/main.rs lines 142-147): for each
bond, index the first endpoint (out of range panics, none here); the Rust
conjunction short-circuits, so the second endpoint is indexed only when
the first one has its heavy flag set. -/
def countHeavyBonds (atoms : List Atom) : List Bond → Nat → Option Nat
  | [], acc => some acc
  | b :: bs, acc =>
    match atoms[b.a1]? with
    | none => none
    | some x =>
      if x.heavy then
        match atoms[b.a2]? with
        | none => none
        | some y => countHeavyBonds atoms bs (if y.heavy then acc + 1 else acc)
      else countHeavyBonds atoms bs acc

/-- Input::load (src/main.rs lines 61-159) on the lines of the file: name
line, discarded line, comment line, counts line (first two
whitespace-separated tokens, trimmed, parsed as usize), then the atom
loop, then the bond loop over at most n_bonds remaining lines (the Rust
iterator take consumes fewer when the lines run out, without error), then
the heavy-bond pass.  Every unwrap/index/overflow panic is none. -/
def load (lines0 : List String) : Option Input :=
  match lines0 with
  | mol_name :: _line2 :: mol_comment :: countsLine :: lines4 =>
    let info := splitAsciiWhitespace countsLine
    match info[0]? with
    | none => none
    | some tok0 =>
    match parseNat (trimWs tok0) with
    | none => none
    | some n_atoms =>
    match info[1]? with
    | none => none
    | some tok1 =>
    match parseNat (trimWs tok1) with
    | none => none
    | some n_bonds =>
    match loadAtomBlock n_atoms lines4 ⟨0, 0, 0, 0, []⟩ with
    | none => none
    | some ab =>
    match loadBondBlock (ab.2.take n_bonds) with
    | none => none
    | some bonds =>
    match countHeavyBonds ab.1.atoms bonds 0 with
    | none => none
    | some heavy_bonds =>
      some { mol_name := mol_name, mol_comment := mol_comment,
             n_c_tot := ab.1.n_c_tot, n_o_tot := ab.1.n_o_tot,
             n_n_tot := ab.1.n_n_tot, n_heavy := ab.1.n_heavy,
             heavy_bonds := heavy_bonds, atoms := ab.1.atoms, bonds := bonds }
  | _ => none

/-- Declared counts of the counts line (line 4): the first two
whitespace-separated tokens, trimmed and parsed as usize, exactly as
Input::load reads them. -/
def declaredCounts (lines : List String) : Option (Nat × Nat) :=
  match lines[3]? with
  | none => none
  | some countsLine =>
  let info := splitAsciiWhitespace countsLine
  match info[0]? with
  | none => none
  | some tok0 =>
  match parseNat (trimWs tok0) with
  | none => none
  | some na =>
  match info[1]? with
  | none => none
  | some tok1 =>
  match parseNat (trimWs tok1) with
  | none => none
  | some nb => some (na, nb)

/-- Spec recomputation of the heavy-bond aggregate, following the spec's
words: the count of bonds where both endpoint atoms are heavy, an
endpoint being heavy exactly when its element symbol is not exactly H;
recomputed independently from the atom and bond sequences. -/
def specHeavyBondCount (atoms : List Atom) (bonds : List Bond) : Nat :=
  (bonds.filter fun b =>
    (match atoms[b.a1]? with
     | some a => a.element ≠ "H"
     | none => false) &&
    (match atoms[b.a2]? with
     | some a => a.element ≠ "H"
     | none => false)).length

/-- End-to-end example file from the spec: two atoms C and O, one double
bond between them. -/
def exOk : List String :=
  ["mol", "meta", "comment", "2 1", "0 0 0 C 0", "1 0 0 O 0", "1 2 2"]

/-- The molecule Input::load produces on exOk. -/
def mOk : Input :=
  { mol_name := "mol", mol_comment := "comment",
    n_c_tot := 1, n_o_tot := 1, n_n_tot := 0, n_heavy := 0, heavy_bonds := 0,
    atoms :=
      [{ element := "C", atype := "C3", x := 0, y := 0, z := 0,
         formal_charge := 0, real_charge := 0, nvalences := 4 },
       { element := "O", atype := "O2", x := 1, y := 0, z := 0,
         formal_charge := 0, real_charge := 0, nvalences := 2 }],
    bonds := [{ a1 := 0, a2 := 1, btype := 'D' }] }

/-- The atom parsed from an atom line with element C and charge token 1.5:
the keeper of the exact charge 3/2 and the rounded formal charge 2. -/
def atomC15 : Atom :=
  { element := "C", atype := "C3", x := 0, y := 0, z := 0,
    formal_charge := 2, real_charge := mkRat 3 2, nvalences := 4 }

/-- The molecule produced from a 0-atom, 0-bond file whose name line and
comment line carry surrounding spaces. -/
def mTrim : Input :=
  { mol_name := "n1 ", mol_comment := " c3 ",
    n_c_tot := 0, n_o_tot := 0, n_n_tot := 0, n_heavy := 0, heavy_bonds := 0,
    atoms := [], bonds := [] }

/-- A successful bond loop yields one bond per line it was given. -/
theorem loadBondBlock_length :
    ∀ (ls : List String) (bs : List Bond),
      loadBondBlock ls = some bs → bs.length = ls.length := by
  intro ls
  induction ls with
  | nil =>
    intro bs h
    simp only [loadBondBlock, Option.some.injEq] at h
    subst h
    rfl
  | cons line rest ih =>
    intro bs h
    cases hbond : parseBondLine line with
    | none => simp [loadBondBlock, hbond] at h
    | some bond =>
      cases hrec : loadBondBlock rest with
      | none => simp [loadBondBlock, hbond, hrec] at h
      | some bonds =>
        simp only [loadBondBlock, hbond, hrec, Option.some.injEq] at h
        subst h
        simp [ih bonds hrec]

/-- A successful atom loop adds exactly n atoms and consumes exactly n
lines. -/
theorem loadAtomBlock_spec :
    ∀ (n : Nat) (lines : List String) (st st2 : AtomState) (rest : List String),
      loadAtomBlock n lines st = some (st2, rest) →
      st2.atoms.length = st.atoms.length + n ∧ rest = lines.drop n := by
  intro n
  induction n with
  | zero =>
    intro lines st st2 rest h
    simp only [loadAtomBlock, Option.some.injEq, Prod.mk.injEq] at h
    obtain ⟨h1, h2⟩ := h
    subst h1
    subst h2
    exact ⟨rfl, rfl⟩
  | succ n ih =>
    intro lines st st2 rest h
    cases lines with
    | nil => simp [loadAtomBlock] at h
    | cons l ls =>
      cases hatom : parseAtomLine l with
      | none => simp [loadAtomBlock, hatom] at h
      | some atom =>
        simp only [loadAtomBlock, hatom] at h
        obtain ⟨hlen, hrest⟩ := ih ls _ st2 rest h
        refine ⟨?_, ?_⟩
        · simp only [List.length_append, List.length_cons, List.length_nil] at hlen
          omega
        · simpa using hrest

/-- A successful heavy-bond pass has indexed the first endpoint of every
bond, so every first endpoint is within the atom list. -/
theorem countHeavyBonds_a1_lt (atoms : List Atom) :
    ∀ (bs : List Bond) (acc res : Nat),
      countHeavyBonds atoms bs acc = some res →
      ∀ b ∈ bs, b.a1 < atoms.length := by
  intro bs
  induction bs with
  | nil =>
    intro acc res h b hb
    simp at hb
  | cons b0 bs ih =>
    intro acc res h b hb
    cases hx : atoms[b0.a1]? with
    | none => simp [countHeavyBonds, hx] at h
    | some x =>
      have ha1 : b0.a1 < atoms.length := (List.getElem?_eq_some.mp hx).1
      simp only [countHeavyBonds, hx] at h
      rcases List.mem_cons.mp hb with rfl | hmem
      · exact ha1
      · by_cases hh : x.heavy = true
        · rw [if_pos hh] at h
          cases hy : atoms[b0.a2]? with
          | none => simp [hy] at h
          | some y =>
            simp only [hy] at h
            exact ih _ _ h b hmem
        · rw [if_neg hh] at h
          exact ih _ _ h b hmem

/-- Inversion of a successful load: the file has at least the four header
lines, the counts line parses, the atom loop, the bond loop and the
heavy-bond pass all succeed, and the result is assembled from their
outputs. -/
theorem load_inv (lines : List String) (m : Input) (h : load lines = some m) :
    ∃ l1 l2 l3 l4 rest na nb st rest2 bonds hb,
      lines = l1 :: l2 :: l3 :: l4 :: rest ∧
      declaredCounts lines = some (na, nb) ∧
      loadAtomBlock na rest ⟨0, 0, 0, 0, []⟩ = some (st, rest2) ∧
      loadBondBlock (rest2.take nb) = some bonds ∧
      countHeavyBonds st.atoms bonds 0 = some hb ∧
      m = { mol_name := l1, mol_comment := l3, n_c_tot := st.n_c_tot,
            n_o_tot := st.n_o_tot, n_n_tot := st.n_n_tot, n_heavy := st.n_heavy,
            heavy_bonds := hb, atoms := st.atoms, bonds := bonds } := by
  match lines with
  | [] => simp [load] at h
  | [l1] => simp [load] at h
  | [l1, l2] => simp [load] at h
  | [l1, l2, l3] => simp [load] at h
  | l1 :: l2 :: l3 :: l4 :: rest =>
    cases htok0 : (splitAsciiWhitespace l4)[0]? with
    | none => simp [load, htok0] at h
    | some tok0 =>
    cases hna : parseNat (trimWs tok0) with
    | none => simp [load, htok0, hna] at h
    | some na =>
    cases htok1 : (splitAsciiWhitespace l4)[1]? with
    | none => simp [load, htok0, hna, htok1] at h
    | some tok1 =>
    cases hnb : parseNat (trimWs tok1) with
    | none => simp [load, htok0, hna, htok1, hnb] at h
    | some nb =>
    cases hab : loadAtomBlock na rest ⟨0, 0, 0, 0, []⟩ with
    | none => simp [load, htok0, hna, htok1, hnb, hab] at h
    | some ab =>
    cases hbonds : loadBondBlock (ab.2.take nb) with
    | none => simp [load, htok0, hna, htok1, hnb, hab, hbonds] at h
    | some bonds =>
    cases hhb : countHeavyBonds ab.1.atoms bonds 0 with
    | none => simp [load, htok0, hna, htok1, hnb, hab, hbonds, hhb] at h
    | some hbv =>
      simp only [load, htok0, hna, htok1, hnb, hab, hbonds, hhb,
        Option.some.injEq] at h
      refine ⟨l1, l2, l3, l4, rest, na, nb, ab.1, ab.2, bonds, hbv, rfl, ?_, ?_,
        hbonds, hhb, h.symm⟩
      · simp only [declaredCounts, List.getElem?_cons_succ, List.getElem?_cons_zero,
          htok0, hna, htok1, hnb]
      · simpa using hab

/-- Claim C1: the claim states the heavy-atom total equals the number of
atom lines whose element is not exactly H.  The code has the comparison
inverted: is_heavy_atom returns true exactly on H, so on the end-to-end
example file with atoms C and O the stored n_heavy is 0 while the number
of non-H atoms is 2. -/
theorem c1_heavy_total_inverted :
    is_heavy_atom "C" = false ∧ is_heavy_atom "FE" = false ∧
    is_heavy_atom "H" = true ∧
    (load exOk).map
        (fun m => (m.n_heavy, (m.atoms.filter fun a => a.element ≠ "H").length))
      = some (0, 2) := by
  decide

/-- Claim C2: the claim states the stored heavy-bond aggregate equals the
number of bonds whose two endpoint atoms have a non-H element.  The code
never assigns the heavy flag of any Atom (it stays at the default false),
so the stored aggregate is always 0; on the end-to-end example file the
stored value is 0 while the independent recomputation gives 1. -/
theorem c2_heavy_bonds_stored_zero :
    (load exOk).map (fun m => (m.heavy_bonds, specHeavyBondCount m.atoms m.bonds))
      = some (0, 1) := by
  decide

/-- Claim C3, counterexample: a file declaring 1 bond but containing no
bond line is loaded successfully with 0 bonds, so the bond count of the
result does not always equal the declared count. -/
theorem c3_counterexample :
    declaredCounts ["m", "meta", "c", "0 1"] = some (0, 1) ∧
    (load ["m", "meta", "c", "0 1"]).map (fun m => (m.atoms.length, m.bonds.length))
      = some (0, 0) ∧
    (0 : Nat) ≠ 1 := by
  decide

/-- Claim C3, amended: whenever load returns a molecule, the atom count
equals the declared atom count, and the bond count equals the declared
bond count capped by the number of lines remaining after the atom block
(the bond loop silently truncates when the lines run short). -/
theorem c3_lengths (lines : List String) (m : Input) (h : load lines = some m) :
    ∃ na nb, declaredCounts lines = some (na, nb) ∧
      m.atoms.length = na ∧ m.bonds.length = min nb (lines.length - 4 - na) := by
  obtain ⟨l1, l2, l3, l4, rest, na, nb, st, rest2, bonds, hbv, hlines, hdc, hab,
    hbonds, hhb, hm⟩ := load_inv lines m h
  subst hlines
  subst hm
  obtain ⟨halen, hrest⟩ := loadAtomBlock_spec na rest ⟨0, 0, 0, 0, []⟩ st rest2 hab
  subst hrest
  have hblen := loadBondBlock_length ((rest.drop na).take nb) bonds hbonds
  refine ⟨na, nb, hdc, ?_, ?_⟩
  · simpa using halen
  · simp only [hblen, List.length_take, List.length_drop, List.length_cons]
    omega

/-- Claim C3, witness: the amended statement evaluated on the end-to-end
example file. -/
theorem c3_lengths_witness :
    ∃ na nb, declaredCounts exOk = some (na, nb) ∧
      mOk.atoms.length = na ∧ mOk.bonds.length = min nb (exOk.length - 4 - na) :=
  c3_lengths exOk mOk (by decide)

/-- Claim C4, counterexample: a readable input that is malformed in the
claim's sense (it declares 2 bonds that the remaining lines cannot
satisfy) does not produce an error outcome at all: load returns a
molecule with 0 bonds. -/
theorem c4_counterexample :
    declaredCounts ["m", "meta", "c", "1 2", "0 0 0 C 0"] = some (1, 2) ∧
    (load ["m", "meta", "c", "1 2", "0 0 0 C 0"]).map
        (fun m => (m.atoms.length, m.bonds.length)) = some (1, 0) := by
  decide

/-- Claim C4, amended: load never returns a reported format-error value.
A missing required line, a non-numeric required token, or an atom count
the remaining lines cannot satisfy makes it panic (modelled none), which
aborts the host process; a bond count the remaining lines cannot satisfy
is silently accepted and a molecule is returned. -/
theorem c4_malformed_eval :
    load [] = none ∧
    load ["m"] = none ∧
    load ["m", "meta"] = none ∧
    load ["m", "meta", "c"] = none ∧
    load ["m", "meta", "c", "a 1"] = none ∧
    load ["m", "meta", "c", "1"] = none ∧
    load ["m", "meta", "c", "2 0", "0 0 0 C 0"] = none ∧
    load ["m", "meta", "c", "1 0", "0 0 x C 0"] = none ∧
    (load ["m", "meta", "c", "1 2", "0 0 0 C 0"]).isSome = true := by
  decide

/-- Claim C5: for every atom line parsed into an atom, the real_charge
field is exactly the value of the charge token (token 4) and the
formal_charge field is that value rounded to the nearest integer with
ties away from zero; concretely 3/2 rounds to 2, -3/2 to -2 and 2/5
to 0. -/
theorem c5_charge_rounding :
    (∀ (line : String) (atom : Atom) (tok : String),
      parseAtomLine line = some atom →
      (splitAsciiWhitespace line)[4]? = some tok →
      parseF64 tok = some atom.real_charge ∧
      atom.formal_charge = f64Round atom.real_charge) ∧
    f64Round (mkRat 3 2) = 2 ∧ f64Round (mkRat (-3) 2) = -2 ∧
    f64Round (mkRat 2 5) = 0 := by
  constructor
  · intro line atom tok hatom htok
    cases h3 : (splitAsciiWhitespace line)[3]? with
    | none => simp [parseAtomLine, h3] at hatom
    | some elem =>
    cases h0 : (splitAsciiWhitespace line)[0]? with
    | none => simp [parseAtomLine, h3, h0] at hatom
    | some xs =>
    cases hx : parseF64 xs with
    | none => simp [parseAtomLine, h3, h0, hx] at hatom
    | some x =>
    cases h1 : (splitAsciiWhitespace line)[1]? with
    | none => simp [parseAtomLine, h3, h0, hx, h1] at hatom
    | some ys =>
    cases hyq : parseF64 ys with
    | none => simp [parseAtomLine, h3, h0, hx, h1, hyq] at hatom
    | some y =>
    cases h2 : (splitAsciiWhitespace line)[2]? with
    | none => simp [parseAtomLine, h3, h0, hx, h1, hyq, h2] at hatom
    | some zs =>
    cases hz : parseF64 zs with
    | none => simp [parseAtomLine, h3, h0, hx, h1, hyq, h2, hz] at hatom
    | some z =>
    cases h4 : (splitAsciiWhitespace line)[4]? with
    | none => simp [parseAtomLine, h3, h0, hx, h1, hyq, h2, hz, h4] at hatom
    | some cs =>
    cases hc : parseF64 cs with
    | none => simp [parseAtomLine, h3, h0, hx, h1, hyq, h2, hz, h4, hc] at hatom
    | some chg =>
    cases hv : get_valence elem with
    | none => simp [parseAtomLine, h3, h0, hx, h1, hyq, h2, hz, h4, hc, hv] at hatom
    | some nv =>
      simp only [parseAtomLine, h3, h0, hx, h1, hyq, h2, hz, h4, hc, hv,
        Option.some.injEq] at hatom
      subst hatom
      rw [h4] at htok
      injection htok with hct
      subst hct
      exact ⟨hc, rfl⟩
  · decide

/-- Claim C5, witness: the atom line with charge token 1.5 produces the
exact real charge 3/2 and the formal charge 2. -/
theorem c5_charge_rounding_witness :
    parseF64 "1.5" = some atomC15.real_charge ∧
    atomC15.formal_charge = f64Round atomC15.real_charge :=
  c5_charge_rounding.1 "0 0 0 C 1.5" atomC15 "1.5" (by decide) (by decide)

/-- Claim C6: the valence lookup returns the documented values on its
documented upper-case symbols, is defined on every one of the twenty-nine
listed symbols, and signals an unsupported-element failure (the
unimplemented! panic, modelled none) on an unlisted symbol such as XX
rather than returning a default value. -/
theorem c6_valence_table :
    get_valence "C" = some 4 ∧ get_valence "N" = some 3 ∧
    get_valence "O" = some 2 ∧ get_valence "CL" = some 1 ∧
    get_valence "FE" = some 3 ∧ get_valence "XX" = none ∧
    (["H", "D", "C", "N", "O", "S", "SE", "TE", "P", "F", "CL", "BR", "I",
      "B", "LI", "NA", "K", "CA", "SR", "MG", "FE", "MN", "HG", "SI", "SN",
      "ZN", "CU", "A", "Q"].all fun s => (get_valence s).isSome) = true := by
  decide

/-- Claim C7: atom-type normalization maps C to C3, O to O2, N to N3, Cl
to CL, and any symbol outside its listed mixed-case domain, such as Xx,
to the dummy-atom code DU instead of failing. -/
theorem c7_mdl_type_table :
    convert_mdl_type "C" = "C3" ∧ convert_mdl_type "O" = "O2" ∧
    convert_mdl_type "N" = "N3" ∧ convert_mdl_type "Cl" = "CL" ∧
    convert_mdl_type "Xx" = "DU" := by
  decide

/-- Claim C8: the bond-code tokens 1 through 9 map to the symbolic types
single, double, triple, aromatic, single-or-double, single-or-aromatic,
double-or-aromatic, any, any (9 equal to 8), and any other token such as
0 or A is a hard parse failure (the unimplemented! panic, modelled
none). -/
theorem c8_bond_code_table :
    bondTypeOfCode "1" = some 'S' ∧ bondTypeOfCode "2" = some 'D' ∧
    bondTypeOfCode "3" = some 'T' ∧ bondTypeOfCode "4" = some 'A' ∧
    bondTypeOfCode "5" = some 'l' ∧ bondTypeOfCode "6" = some 's' ∧
    bondTypeOfCode "7" = some 'd' ∧ bondTypeOfCode "8" = some 'a' ∧
    bondTypeOfCode "9" = some 'a' ∧ bondTypeOfCode "9" = bondTypeOfCode "8" ∧
    bondTypeOfCode "0" = none ∧ bondTypeOfCode "A" = none := by
  decide

/-- Claim C9, counterexample: the loader does not trim the name and
comment lines: a name line with a trailing space and a comment line with
surrounding spaces are stored verbatim, differing from their trimmed
forms. -/
theorem c9_counterexample :
    (load ["n1 ", "meta", " c3 ", "0 0"]).map
        (fun m => (m.mol_name, m.mol_comment)) = some ("n1 ", " c3 ") ∧
    trimWs "n1 " = "n1" ∧ ("n1 " : String) ≠ "n1" ∧
    trimWs " c3 " = "c3" ∧ (" c3 " : String) ≠ "c3" := by
  decide

/-- Claim C9, amended: for every loaded input the molecule's name is
line 1 verbatim (line terminator excluded, surrounding whitespace kept)
and the comment is line 3 verbatim. -/
theorem c9_name_comment_verbatim (l1 l2 l3 : String) (rest : List String)
    (m : Input) (h : load (l1 :: l2 :: l3 :: rest) = some m) :
    m.mol_name = l1 ∧ m.mol_comment = l3 := by
  obtain ⟨a, b, c, d, rest2, na, nb, st, r2, bonds, hbv, hlines, hdc, hab,
    hbonds, hhb, hm⟩ := load_inv _ _ h
  subst hm
  simp only [List.cons.injEq] at hlines
  obtain ⟨h1, h2, h3, h4⟩ := hlines
  exact ⟨h1.symm, h3.symm⟩

/-- Claim C9, witness: the amended statement evaluated on a file whose
name and comment lines carry surrounding spaces. -/
theorem c9_name_comment_verbatim_witness :
    mTrim.mol_name = "n1 " ∧ mTrim.mol_comment = " c3 " :=
  c9_name_comment_verbatim "n1 " "meta" " c3 " ["0 0"] mTrim (by decide)

/-- Claim C10, counterexample: a bond line whose second atom-index token
parses to a value greater than the declared atom count does not make load
fail: because no atom ever has its heavy flag set, the short-circuit
conjunction of the heavy-bond pass never indexes the second endpoint, and
load returns a molecule whose bond stores the out-of-range index 98
against only 2 atoms. -/
theorem c10_counterexample :
    (load ["m", "meta", "c", "2 1", "0 0 0 C 0", "1 0 0 O 0", "1 99 1"]).map
        (fun m => (m.atoms.length, m.bonds.map fun b => (b.a1, b.a2)))
      = some (2, [(0, 98)]) := by
  decide

/-- Claim C10, amended: the first endpoint index of every bond in a
returned molecule is within the atom array (a first index token of 0 or
above the atom count makes load fail through the unchecked subtraction or
the heavy-bond pass indexing), while the second endpoint index is never
validated and can be stored out of range. -/
theorem c10_first_index_bounded (lines : List String) (m : Input)
    (h : load lines = some m) :
    ∀ b ∈ m.bonds, b.a1 < m.atoms.length := by
  obtain ⟨l1, l2, l3, l4, rest, na, nb, st, rest2, bonds, hbv, hlines, hdc, hab,
    hbonds, hhb, hm⟩ := load_inv lines m h
  subst hm
  intro b hbmem
  exact countHeavyBonds_a1_lt st.atoms bonds 0 hbv hhb b hbmem

/-- Claim C10, witness: the amended statement evaluated on the end-to-end
example file at its single bond. -/
theorem c10_first_index_bounded_witness :
    (⟨0, 1, 'D', 0, false, false, 0, 0, 0⟩ : Bond).a1 < mOk.atoms.length :=
  c10_first_index_bounded exOk mOk (by decide) _ (by decide)
